import Mathlib

/-!
Verification development for `src/app.py`, a Streamlit monthly-sales
dashboard.  The embedding models the CSV ingestion routine `load_data`
(required-column validation, numeric coercion with silent row dropping,
percent-sign stripping, sorting by the month string, unit-scaled derived
columns and the cumulative-sum column), the scalar KPI computations of the
header section, the top-level try/except plus `st.stop` control flow, and
the year/month heatmap pivot.

Numeric cells are modelled as rationals: `pd.to_numeric(errors="coerce")`
is embedded as a parser for optionally signed decimal literals returning
`Option ℚ`, with `none` playing the role of NaN.  Infinite floats are not
representable in this model, so the `replace([inf, -inf], nan).fillna(0)`
step of line 135 is the identity here and the KPI `avg_rate` is the plain
mean of the parsed change rates.  String comparison (used by
`sort_values("월")`) is code-point lexicographic order, as in Python.
-/

namespace SalesApp

/-- A CSV table as seen by the dashboard: a header naming the columns and
rows of cell strings (`pd.read_csv`, app.py line 81).  A cell missing from
a short row reads as the empty string, which fails numeric parsing, the
counterpart of a NaN cell in pandas. -/
structure Csv where
  header : List String
  rows : List (List String)

/-- Whether a column named `c` exists in the header (`c in df.columns`,
app.py line 93). -/
def hasCol (header : List String) (c : String) : Bool :=
  header.any (fun x => decide (x = c))

/-- The string content of column `c` in one row. -/
def cell (header row : List String) (c : String) : String :=
  match header.findIdx? (fun x => decide (x = c)) with
  | some i => row.getD i ""
  | none => ""

/-- The required columns, in the order they are checked
(`need = ["월", "매출액", "전년동월", "증감률"]`, app.py line 91). -/
def need : List String := ["월", "매출액", "전년동월", "증감률"]

/-- Drop whitespace from both ends of a character list (Python
`str.strip`, applied to the 월 column at app.py line 98). -/
def stripChars (cs : List Char) : List Char :=
  ((cs.dropWhile Char.isWhitespace).reverse.dropWhile Char.isWhitespace).reverse

/-- Python `str.strip` on strings. -/
def strip (s : String) : String := ⟨stripChars s.data⟩

/-- Value of a digit string, most significant digit first. -/
def digitsVal (cs : List Char) : ℕ :=
  cs.foldl (fun a c => a * 10 + (c.toNat - 48)) 0

/-- Parse an unsigned decimal literal: digits with at most one decimal
point, at least one digit overall (so "5", "5.", ".5" and "14.3" parse
and "", ".", "a1" do not). -/
def parseUnsigned (cs : List Char) : Option ℚ :=
  let ip := cs.takeWhile (fun c => c ≠ '.')
  let rest := cs.dropWhile (fun c => c ≠ '.')
  match rest with
  | [] =>
    if !ip.isEmpty && ip.all Char.isDigit then some (digitsVal ip) else none
  | _ :: fp =>
    if ip.isEmpty && fp.isEmpty then none
    else if ip.all Char.isDigit && fp.all Char.isDigit then
      some ((digitsVal ip : ℚ) + (digitsVal fp : ℚ) / (10 : ℚ) ^ fp.length)
    else none

/-- Model of `pd.to_numeric(errors="coerce")` on a cell string (app.py
lines 99-100): surrounding whitespace is ignored, an optional sign is
followed by a decimal literal, and anything else coerces to `none`
(NaN). -/
def parseNum (s : String) : Option ℚ :=
  match (strip s).data with
  | '-' :: rest => (parseUnsigned rest).map (fun q => -q)
  | '+' :: rest => parseUnsigned rest
  | cs => parseUnsigned cs

/-- Remove every percent sign (`.str.replace("%", "", regex=False)`,
app.py line 101). -/
def stripPercent (s : String) : String := ⟨s.data.filter (fun c => c ≠ '%')⟩

/-- Numeric coercion of the 증감률 column: percent signs are removed from
the string form before parsing (app.py line 101). -/
def parseRate (s : String) : Option ℚ := parseNum (stripPercent s)

/-- Code-point lexicographic order on character lists, the order Python
uses to compare strings (and hence the order of `sort_values("월")`,
app.py line 102). -/
def leChars : List Char → List Char → Bool
  | [], _ => true
  | _ :: _, [] => false
  | a :: as, b :: bs =>
    if a < b then true
    else if b < a then false
    else leChars as bs

/-- String order: code-point lexicographic. -/
abbrev strLE (a b : String) : Prop := leChars a.data b.data = true

/-- A fully parsed data row, before the derived columns are attached:
the cleaned 월 string and the three numeric columns (app.py lines
98-102). -/
structure BaseRow where
  «월» : String
  «매출액» : ℚ
  «전년동월» : ℚ
  «증감률» : ℚ
deriving DecidableEq

/-- Row order used by `sort_values("월")`: compare the cleaned month
strings. -/
abbrev rowLE (a b : BaseRow) : Prop := strLE a.«월» b.«월»

/-- A row of the table returned by `load_data`: the four cleaned columns
plus the four derived columns of app.py lines 105-108. -/
structure CleanRow where
  «월» : String
  «매출액» : ℚ
  «전년동월» : ℚ
  «증감률» : ℚ
  «매출액_단위» : ℚ
  «전년동월_단위» : ℚ
  «누적매출» : ℚ
  «누적매출_단위» : ℚ
deriving DecidableEq

/-- Coerce one raw row (app.py lines 98-101) and apply the row-wise part
of `dropna(subset=...)` (line 102): the row survives exactly when all
three numeric cells parse.  The 월 cell always becomes a (stripped)
string, as `astype(str)` never yields NaN. -/
def parseRow (header row : List String) : Option BaseRow :=
  match parseNum (cell header row "매출액"), parseNum (cell header row "전년동월"),
      parseRate (cell header row "증감률") with
  | some a, some b, some c => some ⟨strip (cell header row "월"), a, b, c⟩
  | _, _, _ => none

/-- Attach the derived columns of app.py lines 105-108 to the sorted
rows, threading the running total that `cumsum()` computes: `acc` is the
sum of the 매출액 values of the rows already emitted. -/
def deriveRows (u : ℚ) : ℚ → List BaseRow → List CleanRow
  | _, [] => []
  | acc, r :: rs =>
    let c := acc + r.«매출액»
    ⟨r.«월», r.«매출액», r.«전년동월», r.«증감률»,
      r.«매출액» / u, r.«전년동월» / u, c, c / u⟩ :: deriveRows u c rs

/-- The ingestion routine `load_data` (app.py lines 79-109) on an
uploaded CSV, for display unit `u`: raise on the first missing required
column, otherwise coerce the columns, drop the rows with an unparsable
numeric cell, sort ascending by the cleaned 월 string, reset the index
(implicit in the list model: the position is the index) and attach the
derived columns. -/
def load_data (u : ℚ) (csv : Csv) : Except String (List CleanRow) :=
  match need.find? (fun c => !hasCol csv.header c) with
  | some c => .error ("필수 컬럼 누락: " ++ c)
  | none =>
    .ok (deriveRows u 0
      (List.insertionSort rowLE (csv.rows.filterMap (parseRow csv.header))))

/-- The scalar KPIs of the header section (app.py lines 133-137 and
148). -/
structure Kpis where
  max_sales : ℚ
  avg_sales : ℚ
  avg_rate : ℚ
  cum_last : ℚ
  attain_rate : ℚ
deriving DecidableEq

/-- `df["매출액"].max()` (app.py line 133), on a nonempty table. -/
def salesMax (df : List CleanRow) : ℚ :=
  match df.map (fun r => r.«매출액») with
  | [] => 0
  | x :: xs => xs.foldl max x

/-- Arithmetic mean of a list of rationals (`Series.mean()`). -/
def mean (l : List ℚ) : ℚ := l.sum / (l.length : ℚ)

/-- `df["누적매출"].iloc[-1]` (app.py line 136): the last entry of the
cumulative column, `none` when the table is empty, in which case the real
code raises an uncaught IndexError. -/
def cumLast? (df : List CleanRow) : Option ℚ :=
  (df.map (fun r => r.«누적매출»)).getLast?

/-- Outcome of the top-level script: `loadError` when `load_data` raised
and the try/except displayed the message and `st.stop()` ended rendering
before any KPI or chart (app.py lines 111-116 and 130-131); `crash` when
`load_data` succeeded with an empty table and `iloc[-1]` at line 136 threw
an IndexError outside the load-error handler; `page` with the computed
KPIs otherwise. -/
inductive Render where
  | loadError (msg : String)
  | crash
  | page (k : Kpis)
deriving DecidableEq

/-- The top-level flow of app.py: load, stop with the message on a load
error, otherwise compute the KPIs of lines 133-137 and 148 (`avg_rate` is
the mean of 증감률 — the inf-replacement of line 135 is the identity over
rationals; `attain_rate` is 0 for goal 0 and 100·cum_last/goal
otherwise). -/
def run (u goal : ℚ) (csv : Csv) : Render :=
  match load_data u csv with
  | .error m => .loadError m
  | .ok df =>
    match cumLast? df with
    | none => .crash
    | some cl =>
      .page ⟨salesMax df, mean (df.map (fun r => r.«매출액»)),
        mean (df.map (fun r => r.«증감률»)), cl,
        if goal = 0 then 0 else 100 * cl / goal⟩

/-- `tmp["월"].str.slice(0, 4)` (app.py line 273): the year label of a
month string. -/
def yearOf (m : String) : String := ⟨m.data.take 4⟩

/-- `tmp["월"].str.slice(5, 7)` (app.py line 274): the month-number label
of a month string. -/
def monthOf (m : String) : String := ⟨(m.data.drop 5).take 2⟩

/-- The (year, month) group key of a row in the heatmap pivot. -/
def rowKey (r : CleanRow) : String × String := (yearOf r.«월», monthOf r.«월»)

/-- Add one value to the (year, month) group it belongs to, starting a new
group at the end when the key is new. -/
def pivotAdd (k : String × String) (v : ℚ) :
    List ((String × String) × ℚ) → List ((String × String) × ℚ)
  | [] => [(k, v)]
  | (k2, s) :: rest =>
    if k2 = k then (k2, s + v) :: rest else (k2, s) :: pivotAdd k v rest

/-- Fold step of the heatmap aggregation: add one row's 매출액_단위 to its
(year, month) group. -/
def pivotStep (acc : List ((String × String) × ℚ)) (r : CleanRow) :
    List ((String × String) × ℚ) :=
  pivotAdd (rowKey r) r.«매출액_단위» acc

/-- `pivot_table(index="연", columns="월번호", values="매출액_단위",
aggfunc="sum")` (app.py line 275) as a grouped aggregation: fold the rows,
summing 매출액_단위 into the group of each row's (year, month) key. -/
def pivot_table (df : List CleanRow) : List ((String × String) × ℚ) :=
  df.foldl pivotStep []

/-- The heatmap cell for a (year, month) key: `none` models the NaN hole
pandas leaves for a missing combination. -/
def pivotLookup : List ((String × String) × ℚ) → String × String → Option ℚ
  | [], _ => none
  | (k2, s) :: rest, k => if k2 = k then some s else pivotLookup rest k

/-- `sorted(pivot.columns.tolist())` (app.py line 277): the distinct
month-number labels in ascending order. -/
def monthCols (df : List CleanRow) : List String :=
  List.insertionSort strLE ((df.map (fun r => monthOf r.«월»)).dedup)

/-- The sum of 매출액_단위 over the rows of one (year, month) group — what
the heatmap claim says a cell holds. -/
def groupSum (df : List CleanRow) (k : String × String) : ℚ :=
  ((df.filter (fun r => decide (rowKey r = k))).map
    (fun r => r.«매출액_단위»)).sum

deriving instance DecidableEq for Except

/-- Code-point order on character lists is total. -/
theorem leChars_total : ∀ x y : List Char, leChars x y = true ∨ leChars y x = true
  | [], _ => Or.inl rfl
  | _ :: _, [] => Or.inr rfl
  | a :: as, b :: bs => by
    rcases lt_trichotomy a b with h | h | h
    · exact Or.inl (by simp [leChars, h])
    · subst h
      rcases leChars_total as bs with ih | ih
      · exact Or.inl (by simp [leChars, ih])
      · exact Or.inr (by simp [leChars, ih])
    · exact Or.inr (by simp [leChars, h])

/-- Code-point order on character lists is transitive. -/
theorem leChars_trans : ∀ x y z : List Char,
    leChars x y = true → leChars y z = true → leChars x z = true
  | [], _, _, _, _ => rfl
  | _ :: _, [], _, h1, _ => absurd h1 (by simp [leChars])
  | _ :: _, _ :: _, [], _, h2 => absurd h2 (by simp [leChars])
  | a :: as, b :: bs, c :: cs, h1, h2 => by
    rcases lt_trichotomy a b with hab | hab | hab
    · rcases lt_trichotomy b c with hbc | hbc | hbc
      · simp [leChars, lt_trans hab hbc]
      · subst hbc; simp [leChars, hab]
      · exact absurd h2 (by simp [leChars, lt_asymm hbc, hbc])
    · subst hab
      rcases lt_trichotomy a c with hac | hac | hac
      · simp [leChars, hac]
      · subst hac
        simp only [leChars, lt_irrefl, if_false] at h1 h2 ⊢
        exact leChars_trans as bs cs h1 h2
      · exact absurd h2 (by simp [leChars, lt_asymm hac, hac])
    · exact absurd h1 (by simp [leChars, lt_asymm hab, hab])

instance : IsTotal String strLE := ⟨fun a b => leChars_total a.data b.data⟩

instance : IsTrans String strLE :=
  ⟨fun a b c => leChars_trans a.data b.data c.data⟩

instance : IsTotal BaseRow rowLE :=
  ⟨fun a b => leChars_total a.«월».data b.«월».data⟩

instance : IsTrans BaseRow rowLE :=
  ⟨fun a b c => leChars_trans a.«월».data b.«월».data c.«월».data⟩

/-- Attaching the derived columns does not change the 월 column. -/
theorem deriveRows_map_wol (u : ℚ) : ∀ (a : ℚ) (l : List BaseRow),
    (deriveRows u a l).map (fun r => r.«월») = l.map (fun b => b.«월»)
  | _, [] => rfl
  | a, r :: rs => by
    simp only [deriveRows, List.map_cons]
    rw [deriveRows_map_wol u (a + r.«매출액») rs]

/-- Attaching the derived columns does not change the 매출액 column. -/
theorem deriveRows_map_sales (u : ℚ) : ∀ (a : ℚ) (l : List BaseRow),
    (deriveRows u a l).map (fun r => r.«매출액») = l.map (fun b => b.«매출액»)
  | _, [] => rfl
  | a, r :: rs => by
    simp only [deriveRows, List.map_cons]
    rw [deriveRows_map_sales u (a + r.«매출액») rs]

/-- Attaching the derived columns keeps the number of rows. -/
theorem deriveRows_length (u : ℚ) : ∀ (a : ℚ) (l : List BaseRow),
    (deriveRows u a l).length = l.length
  | _, [] => rfl
  | a, r :: rs => by
    simp only [deriveRows, List.length_cons]
    exact congrArg (· + 1) (deriveRows_length u (a + r.«매출액») rs)

/-- Every derived row comes from a base row, copies its four cleaned
columns, and its unit columns are the corresponding column divided by the
unit. -/
theorem mem_deriveRows (u : ℚ) : ∀ (a : ℚ) (l : List BaseRow) (r : CleanRow),
    r ∈ deriveRows u a l →
    ∃ b ∈ l, r.«월» = b.«월» ∧ r.«매출액» = b.«매출액» ∧
      r.«전년동월» = b.«전년동월» ∧ r.«증감률» = b.«증감률» ∧
      r.«매출액_단위» = r.«매출액» / u ∧ r.«전년동월_단위» = r.«전년동월» / u ∧
      r.«누적매출_단위» = r.«누적매출» / u
  | a, b :: l, r, hr => by
    rcases List.mem_cons.mp hr with h | h
    · subst h
      exact ⟨b, List.mem_cons_self b l, rfl, rfl, rfl, rfl, rfl, rfl, rfl⟩
    · obtain ⟨b2, hb2, hrest⟩ := mem_deriveRows u (a + b.«매출액») l r h
      exact ⟨b2, List.mem_cons_of_mem b hb2, hrest⟩

/-- The 누적매출 entry at index `i` is the accumulator plus the sum of the
first `i + 1` values of 매출액. -/
theorem deriveRows_cum_get (u : ℚ) : ∀ (a : ℚ) (l : List BaseRow) (i : ℕ),
    i < l.length →
    ((deriveRows u a l).map (fun r => r.«누적매출»))[i]? =
      some (a + ((l.map (fun b => b.«매출액»)).take (i + 1)).sum)
  | _, [], i, hi => absurd hi (by simp)
  | a, r :: rs, 0, _ => by
    simp [deriveRows]
  | a, r :: rs, i + 1, hi => by
    simp only [deriveRows, List.map_cons, List.getElem?_cons_succ,
      List.take_succ_cons, List.sum_cons]
    rw [deriveRows_cum_get u (a + r.«매출액») rs i (by simpa using hi)]
    rw [add_assoc]

/-- The last 누적매출 entry is the accumulator plus the sum of all 매출액
values. -/
theorem deriveRows_cum_last (u : ℚ) : ∀ (a : ℚ) (l : List BaseRow), l ≠ [] →
    ((deriveRows u a l).map (fun r => r.«누적매출»)).getLast? =
      some (a + (l.map (fun b => b.«매출액»)).sum)
  | _, [], h => absurd rfl h
  | a, [r], _ => by simp [deriveRows]
  | a, r :: r2 :: rs, _ => by
    have ih := deriveRows_cum_last u (a + r.«매출액») (r2 :: rs) (by simp)
    simp only [deriveRows, List.map_cons, List.getLast?_cons_cons,
      List.sum_cons] at ih ⊢
    rw [ih, add_assoc]

/-- Inversion of a successful `load_data`: the table is exactly the
derived, sorted, parsed rows. -/
theorem load_data_ok {u : ℚ} {csv : Csv} {df : List CleanRow}
    (h : load_data u csv = .ok df) :
    df = deriveRows u 0
      (List.insertionSort rowLE (csv.rows.filterMap (parseRow csv.header))) := by
  unfold load_data at h
  cases hf : need.find? (fun c => !hasCol csv.header c) with
  | some c => rw [hf] at h; simp at h
  | none => rw [hf] at h; exact (Except.ok.inj h).symm

/-- When the column scan finds a missing column, `load_data` raises the
message naming it. -/
theorem load_data_find_err {u : ℚ} {csv : Csv} {c : String}
    (hf : need.find? (fun c => !hasCol csv.header c) = some c) :
    load_data u csv = .error ("필수 컬럼 누락: " ++ c) := by
  unfold load_data
  rw [hf]

/-- Length of `filterMap` as the count of inputs the function keeps. -/
theorem length_filterMap_eq_countP {α β : Type} (f : α → Option β) :
    ∀ l : List α, (l.filterMap f).length = l.countP (fun a => (f a).isSome)
  | [] => rfl
  | a :: l => by
    cases hf : f a with
    | none =>
      simp [List.filterMap_cons, hf, List.countP_cons,
        length_filterMap_eq_countP f l]
    | some b =>
      simp [List.filterMap_cons, hf, List.countP_cons,
        length_filterMap_eq_countP f l]

/-- The seed never exceeds a `foldl max`. -/
theorem le_foldl_max : ∀ (l : List ℚ) (a : ℚ), a ≤ l.foldl max a
  | [], a => le_refl a
  | b :: l, a => le_trans (le_max_left a b) (le_foldl_max l (max a b))

/-- Every element is at most the `foldl max`. -/
theorem foldl_max_le : ∀ (l : List ℚ) (a x : ℚ), x ∈ l → x ≤ l.foldl max a
  | [], _, _, hx => absurd hx (List.not_mem_nil _)
  | b :: l, a, x, hx => by
    rcases List.mem_cons.mp hx with h | h
    · subst h
      exact le_trans (le_max_right a x) (le_foldl_max l (max a x))
    · exact foldl_max_le l (max a b) x h

/-- A `foldl max` is the seed or one of the elements. -/
theorem foldl_max_mem : ∀ (l : List ℚ) (a : ℚ),
    l.foldl max a = a ∨ l.foldl max a ∈ l
  | [], _ => Or.inl rfl
  | b :: l, a => by
    simp only [List.foldl_cons]
    rcases foldl_max_mem l (max a b) with h | h
    · rcases max_choice a b with h2 | h2
      · exact Or.inl (by rw [h, h2])
      · exact Or.inr (by rw [h, h2]; exact List.mem_cons_self b l)
    · exact Or.inr (List.mem_cons_of_mem b h)

/-- `df["매출액"].max()` on a nonempty table: it is attained by a row and
bounds every row. -/
theorem salesMax_spec (df : List CleanRow) (h : df ≠ []) :
    salesMax df ∈ df.map (fun r => r.«매출액») ∧
      ∀ x ∈ df.map (fun r => r.«매출액»), x ≤ salesMax df := by
  cases hm : df.map (fun r => r.«매출액») with
  | nil => exact absurd (List.map_eq_nil_iff.mp hm) h
  | cons x xs =>
    have hsm : salesMax df = xs.foldl max x := by unfold salesMax; rw [hm]
    rw [hsm]
    constructor
    · rcases foldl_max_mem xs x with h2 | h2
      · rw [h2]; exact List.mem_cons_self x xs
      · exact List.mem_cons_of_mem x h2
    · intro y hy
      rcases List.mem_cons.mp hy with h2 | h2
      · subst h2; exact le_foldl_max xs y
      · exact foldl_max_le xs x y h2

/-- Looking a key up after adding a value to its group: the group of that
key grows by the value, every other group is unchanged. -/
theorem pivotLookup_pivotAdd (k : String × String) (v : ℚ) :
    ∀ (t : List ((String × String) × ℚ)) (k2 : String × String),
    pivotLookup (pivotAdd k v t) k2 =
      if k2 = k then some ((pivotLookup t k).getD 0 + v)
      else pivotLookup t k2
  | [], k2 => by
    by_cases h : k2 = k
    · simp [pivotAdd, pivotLookup, h]
    · simp [pivotAdd, pivotLookup, h, Ne.symm h]
  | (k3, s) :: rest, k2 => by
    by_cases h3 : k3 = k
    · subst h3
      by_cases h : k2 = k3
      · subst h
        simp [pivotAdd, pivotLookup]
      · simp [pivotAdd, pivotLookup, h, Ne.symm h]
    · by_cases h : k2 = k3
      · subst h
        simp [pivotAdd, pivotLookup, h3]
      · simp [pivotAdd, pivotLookup, h3, h, Ne.symm h,
          pivotLookup_pivotAdd k v rest]

/-- Folding rows into the pivot: a key's group holds the previous content
plus the sum of the folded rows with that key; a key no row and no
previous group has stays absent. -/
theorem pivotLookup_foldl : ∀ (rows : List CleanRow)
    (acc : List ((String × String) × ℚ)) (k : String × String),
    pivotLookup (rows.foldl pivotStep acc) k =
      if (pivotLookup acc k).isSome
          || rows.any (fun r => decide (rowKey r = k))
      then some ((pivotLookup acc k).getD 0 + groupSum rows k)
      else none
  | [], acc, k => by
    cases h : pivotLookup acc k with
    | none => simp [groupSum, h]
    | some s => simp [groupSum, h]
  | r :: rs, acc, k => by
    simp only [List.foldl_cons]
    rw [pivotLookup_foldl rs (pivotStep acc r) k]
    by_cases hk : rowKey r = k
    · have hadd := pivotLookup_pivotAdd (rowKey r) r.«매출액_단위» acc k
      rw [if_pos hk.symm] at hadd
      have hsum : groupSum (r :: rs) k = r.«매출액_단위» + groupSum rs k := by
        simp [groupSum, List.filter_cons, hk]
      rw [hsum]
      simp only [pivotStep, hadd]
      simp [List.any_cons, hk, add_assoc]
    · have hadd := pivotLookup_pivotAdd (rowKey r) r.«매출액_단위» acc k
      rw [if_neg (Ne.symm hk)] at hadd
      have hsum : groupSum (r :: rs) k = groupSum rs k := by
        simp [groupSum, List.filter_cons, hk]
      rw [hsum]
      simp only [pivotStep, hadd]
      simp [List.any_cons, hk]

/-- Inversion of a successful row parse: all three numeric cells parsed
and the 월 cell was stripped. -/
theorem parseRow_some {header row : List String} {b : BaseRow}
    (h : parseRow header row = some b) :
    parseNum (cell header row "매출액") = some b.«매출액» ∧
      parseNum (cell header row "전년동월") = some b.«전년동월» ∧
      parseRate (cell header row "증감률") = some b.«증감률» ∧
      strip (cell header row "월") = b.«월» := by
  unfold parseRow at h
  cases h1 : parseNum (cell header row "매출액") with
  | none => rw [h1] at h; simp at h
  | some a1 =>
    cases h2 : parseNum (cell header row "전년동월") with
    | none => rw [h1, h2] at h; simp at h
    | some a2 =>
      cases h3 : parseRate (cell header row "증감률") with
      | none => rw [h1, h2, h3] at h; simp at h
      | some a3 =>
        rw [h1, h2, h3] at h
        injection h with h
        subst h
        exact ⟨rfl, rfl, rfl, rfl⟩

/-- C1: the claim says an input CSV with all four required columns but an
unparsable value in 매출액, 전년동월 or 증감률 makes the program report an
error and halt.  It does not: `errors="coerce"` turns the value into NaN
and `dropna` silently removes the row (app.py lines 99-102).  Here a CSV
whose second row has 매출액 "oops" loads successfully with that row
dropped, and the dashboard renders a full KPI page instead of an error. -/
theorem claim_C1_counterexample :
    load_data 1 ⟨["월", "매출액", "전년동월", "증감률"],
        [["2024-01", "100", "80", "25"], ["2024-02", "oops", "90", "10"]]⟩ =
      .ok [⟨"2024-01", 100, 80, 25, 100, 80, 100, 100⟩] ∧
    run 1 1000 ⟨["월", "매출액", "전년동월", "증감률"],
        [["2024-01", "100", "80", "25"], ["2024-02", "oops", "90", "10"]]⟩ =
      .page ⟨100, 100, 25, 100, 10⟩ := by
  constructor
  · with_unfolding_all decide
  · with_unfolding_all decide

/-- C1 (amended): for every input CSV that contains all four required
columns, `load_data` reports no error at all — it always succeeds, values
that cannot be parsed as numbers being coerced to missing and their rows
silently dropped. -/
theorem claim_C1 (u : ℚ) (csv : Csv)
    (h : ∀ c ∈ need, hasCol csv.header c = true) :
    ∃ df, load_data u csv = .ok df := by
  unfold load_data
  cases hf : need.find? (fun c => !hasCol csv.header c) with
  | some c =>
    have hp := List.find?_some hf
    have hmem := List.mem_of_find?_eq_some hf
    rw [h c hmem] at hp
    simp at hp
  | none => exact ⟨_, rfl⟩

/-- C1 witness: the counterexample CSV has all four columns, so the
amended claim applies to it. -/
theorem claim_C1_witness : ∃ df,
    load_data 1 ⟨["월", "매출액", "전년동월", "증감률"],
      [["2024-01", "100", "80", "25"], ["2024-02", "oops", "90", "10"]]⟩ =
    .ok df :=
  claim_C1 1 _ (by decide)

/-- C2: a table lacking a required column makes `load_data` raise an error
whose message names the missing column (app.py lines 91-94), the try/except
surfaces exactly that message, and rendering stops before any KPI or chart
(`st.stop()` at line 131): the outcome is `loadError`, which carries no
KPI page. -/
theorem claim_C2 (u goal : ℚ) (csv : Csv)
    (h : ∃ c ∈ need, hasCol csv.header c = false) :
    ∃ c, c ∈ need ∧ hasCol csv.header c = false ∧
      load_data u csv = .error ("필수 컬럼 누락: " ++ c) ∧
      run u goal csv = .loadError ("필수 컬럼 누락: " ++ c) := by
  have hf : (need.find? (fun c => !hasCol csv.header c)).isSome := by
    rw [List.find?_isSome]
    obtain ⟨c, hc, hcol⟩ := h
    exact ⟨c, hc, by simp [hcol]⟩
  obtain ⟨c, hc⟩ := Option.isSome_iff_exists.mp hf
  have hmem := List.mem_of_find?_eq_some hc
  have hp := List.find?_some hc
  refine ⟨c, hmem, by simpa using hp, load_data_find_err hc, ?_⟩
  unfold run
  rw [load_data_find_err hc]

/-- C2 witness: a table with the 월 column missing. -/
theorem claim_C2_witness :
    ∃ c, c ∈ need ∧ hasCol ["매출액", "전년동월", "증감률"] c = false ∧
      load_data 1 ⟨["매출액", "전년동월", "증감률"], [["1", "2", "3"]]⟩ =
        .error ("필수 컬럼 누락: " ++ c) ∧
      run 1 200000000 ⟨["매출액", "전년동월", "증감률"], [["1", "2", "3"]]⟩ =
        .loadError ("필수 컬럼 누락: " ++ c) :=
  claim_C2 1 200000000 ⟨["매출액", "전년동월", "증감률"], [["1", "2", "3"]]⟩
    ⟨"월", by decide, by decide⟩

/-- C10: a CSV with all four required columns whose single row fails
numeric parsing: `load_data` succeeds with an empty table, and the program
then crashes at `df["누적매출"].iloc[-1]` (app.py line 136) — an access
that sits after the try/except, outside the load-error handler, modelled
by the `crash` outcome. -/
theorem claim_C10 :
    load_data 1 ⟨["월", "매출액", "전년동월", "증감률"],
        [["2024-01", "abc", "100", "5"]]⟩ = .ok [] ∧
    run 1 200000000 ⟨["월", "매출액", "전년동월", "증감률"],
        [["2024-01", "abc", "100", "5"]]⟩ = .crash := by
  constructor
  · with_unfolding_all decide
  · with_unfolding_all decide

/-- C3: in every table returned by `load_data`, the 누적매출 entry at row
index `i` is the sum of 매출액 over rows 0 through `i` (app.py line 107),
and the final 누적매출 entry is the total of all 매출액 values. -/
theorem claim_C3 (u : ℚ) (csv : Csv) (df : List CleanRow)
    (h : load_data u csv = .ok df) (i : ℕ) (hi : i < df.length) :
    (df.map (fun r => r.«누적매출»))[i]? =
      some (((df.map (fun r => r.«매출액»)).take (i + 1)).sum) ∧
    cumLast? df = some ((df.map (fun r => r.«매출액»)).sum) := by
  have hdf := load_data_ok h
  subst hdf
  set l := List.insertionSort rowLE (csv.rows.filterMap (parseRow csv.header))
  have hil : i < l.length := deriveRows_length u 0 l ▸ hi
  constructor
  · rw [deriveRows_map_sales u 0 l, deriveRows_cum_get u 0 l i hil, zero_add]
  · have hne : l ≠ [] := by
      intro hnil
      rw [hnil] at hil
      simp at hil
    unfold cumLast?
    rw [deriveRows_map_sales u 0 l, deriveRows_cum_last u 0 l hne, zero_add]

/-- C3 witness: a two-row table, checked at row index 1. -/
theorem claim_C3_witness :
    (([⟨"2024-01", 10, 8, 25, 10, 8, 10, 10⟩,
        ⟨"2024-02", 3, 2, 1, 3, 2, 13, 13⟩] : List CleanRow).map
      (fun r => r.«누적매출»))[1]? =
      some (((([⟨"2024-01", 10, 8, 25, 10, 8, 10, 10⟩,
        ⟨"2024-02", 3, 2, 1, 3, 2, 13, 13⟩] : List CleanRow).map
          (fun r => r.«매출액»)).take (1 + 1)).sum) ∧
    cumLast? [⟨"2024-01", 10, 8, 25, 10, 8, 10, 10⟩,
        ⟨"2024-02", 3, 2, 1, 3, 2, 13, 13⟩] =
      some ((([⟨"2024-01", 10, 8, 25, 10, 8, 10, 10⟩,
        ⟨"2024-02", 3, 2, 1, 3, 2, 13, 13⟩] : List CleanRow).map
          (fun r => r.«매출액»)).sum) :=
  claim_C3 1 ⟨["월", "매출액", "전년동월", "증감률"],
      [["2024-02", "3", "2", "1"], ["2024-01", "10", "8", "25"]]⟩
    [⟨"2024-01", 10, 8, 25, 10, 8, 10, 10⟩,
      ⟨"2024-02", 3, 2, 1, 3, 2, 13, 13⟩]
    (by with_unfolding_all decide) 1 (by decide)

/-- C4: every table returned by `load_data` is sorted ascending by the 월
column, compared as cleaned (stringified, stripped) strings in code-point
order (app.py lines 98 and 102); the list position is the reset 0..n-1
index. -/
theorem claim_C4 (u : ℚ) (csv : Csv) (df : List CleanRow)
    (h : load_data u csv = .ok df) :
    List.Sorted (fun a b : CleanRow => strLE a.«월» b.«월») df := by
  have hdf := load_data_ok h
  subst hdf
  set l := List.insertionSort rowLE (csv.rows.filterMap (parseRow csv.header))
    with hl
  have hs : List.Sorted rowLE l := hl ▸ List.sorted_insertionSort rowLE _
  have htr := List.pairwise_map (l := deriveRows u 0 l)
    (f := fun r : CleanRow => r.«월») (R := strLE)
  refine htr.mp ?_
  rw [deriveRows_map_wol u 0 l]
  have htr2 := List.pairwise_map (l := l)
    (f := fun b : BaseRow => b.«월») (R := strLE)
  exact htr2.mpr hs

/-- C4 witness: the rows of an out-of-order upload come back sorted by
월. -/
theorem claim_C4_witness :
    List.Sorted (fun a b : CleanRow => strLE a.«월» b.«월»)
      [⟨"2024-01", 10, 8, 25, 10, 8, 10, 10⟩,
        ⟨"2024-02", 3, 2, 1, 3, 2, 13, 13⟩] :=
  claim_C4 1 ⟨["월", "매출액", "전년동월", "증감률"],
      [["2024-02", "3", "2", "1"], ["2024-01", "10", "8", "25"]]⟩
    [⟨"2024-01", 10, 8, 25, 10, 8, 10, 10⟩,
      ⟨"2024-02", 3, 2, 1, 3, 2, 13, 13⟩]
    (by with_unfolding_all decide)

/-- C5: the 증감률 coercion removes every percent sign before parsing, so
appending "%" to any input string does not change the parsed value — in
particular a numeric string and the same string followed by "%" parse to
the same number — while 매출액 and 전년동월 go through plain `to_numeric`,
where a trailing "%" kills the parse ("5%" is 5 for 증감률 and NaN for
매출액). -/
theorem claim_C5 :
    (∀ s : String, parseRate (s ++ "%") = parseRate s) ∧
    parseRate "5%" = some 5 ∧ parseNum "5%" = none := by
  refine ⟨?_, by decide, by decide⟩
  intro s
  unfold parseRate
  have hs : stripPercent (s ++ "%") = stripPercent s := by
    unfold stripPercent
    rw [String.data_append, List.filter_append]
    simp
  rw [hs]

/-- C6: in every table returned by `load_data` under a selected unit
divisor u ∈ 1, 1000, 1000000 (app.py line 66), each row satisfies
매출액_단위 = 매출액 / u, 전년동월_단위 = 전년동월 / u and 누적매출_단위 =
누적매출 / u (app.py lines 105-108). -/
theorem claim_C6 (u : ℚ) (csv : Csv) (df : List CleanRow)
    (_hu : u = 1 ∨ u = 1000 ∨ u = 1000000)
    (h : load_data u csv = .ok df) :
    ∀ r ∈ df, r.«매출액_단위» = r.«매출액» / u ∧
      r.«전년동월_단위» = r.«전년동월» / u ∧
      r.«누적매출_단위» = r.«누적매출» / u := by
  intro r hr
  have hdf := load_data_ok h
  subst hdf
  obtain ⟨b, hb, e1, e2, e3, e4, e5, e6, e7⟩ := mem_deriveRows u 0 _ r hr
  exact ⟨e5, e6, e7⟩

set_option maxRecDepth 10000 in
/-- C6 witness: one row in units of 천원 (u = 1000). -/
theorem claim_C6_witness :
    (⟨"2024-01", 2000, 1000, 100, 2, 1, 2000, 2⟩ : CleanRow).«매출액_단위» =
      (⟨"2024-01", 2000, 1000, 100, 2, 1, 2000, 2⟩ : CleanRow).«매출액» / 1000 ∧
    (⟨"2024-01", 2000, 1000, 100, 2, 1, 2000, 2⟩ : CleanRow).«전년동월_단위» =
      (⟨"2024-01", 2000, 1000, 100, 2, 1, 2000, 2⟩ : CleanRow).«전년동월» / 1000 ∧
    (⟨"2024-01", 2000, 1000, 100, 2, 1, 2000, 2⟩ : CleanRow).«누적매출_단위» =
      (⟨"2024-01", 2000, 1000, 100, 2, 1, 2000, 2⟩ : CleanRow).«누적매출» / 1000 :=
  claim_C6 1000
    ⟨["월", "매출액", "전년동월", "증감률"], [["2024-01", "2000", "1000", "100"]]⟩
    [⟨"2024-01", 2000, 1000, 100, 2, 1, 2000, 2⟩]
    (Or.inr (Or.inl rfl))
    (by with_unfolding_all decide)
    ⟨"2024-01", 2000, 1000, 100, 2, 1, 2000, 2⟩
    (List.mem_cons_self _ _)

/-- C7: on a successfully loaded nonempty table the dashboard renders a
KPI page whose four displayed KPIs are: the maximum of 매출액 (attained by
a row and bounding every row), the arithmetic mean of 매출액, the mean of
증감률 (the inf-to-0 replacement of line 135 is the identity over the
rationals of this model), and the goal-attainment percentage
100·(final 누적매출)/goal for nonzero goal and 0 for goal 0 (app.py lines
133-137 and 148), the final 누적매출 being the total of 매출액. -/
theorem claim_C7 (u goal : ℚ) (csv : Csv) (df : List CleanRow)
    (h : load_data u csv = .ok df) (hne : df ≠ []) :
    ∃ k : Kpis, run u goal csv = .page k ∧
      k.max_sales ∈ df.map (fun r => r.«매출액») ∧
      (∀ x ∈ df.map (fun r => r.«매출액»), x ≤ k.max_sales) ∧
      k.avg_sales = (df.map (fun r => r.«매출액»)).sum / (df.length : ℚ) ∧
      k.avg_rate = (df.map (fun r => r.«증감률»)).sum / (df.length : ℚ) ∧
      k.cum_last = (df.map (fun r => r.«매출액»)).sum ∧
      k.attain_rate =
        (if goal = 0 then 0
          else 100 * (df.map (fun r => r.«매출액»)).sum / goal) := by
  have hdf := load_data_ok h
  have hlne :
      List.insertionSort rowLE (csv.rows.filterMap (parseRow csv.header)) ≠ [] := by
    intro hnil
    apply hne
    rw [hdf, hnil]
    rfl
  have hcum : cumLast? df = some ((df.map (fun r => r.«매출액»)).sum) := by
    rw [hdf]
    unfold cumLast?
    rw [deriveRows_map_sales u 0 _, deriveRows_cum_last u 0 _ hlne, zero_add]
  have hrun : run u goal csv =
      .page ⟨salesMax df, (df.map (fun r => r.«매출액»)).sum / (df.length : ℚ),
        (df.map (fun r => r.«증감률»)).sum / (df.length : ℚ),
        (df.map (fun r => r.«매출액»)).sum,
        if goal = 0 then 0
          else 100 * (df.map (fun r => r.«매출액»)).sum / goal⟩ := by
    simp only [run, mean, h, hcum, List.length_map]
  exact ⟨_, hrun, (salesMax_spec df hne).1, (salesMax_spec df hne).2,
    rfl, rfl, rfl, rfl⟩

/-- C7 witness: the KPI page of a concrete two-row table with goal
1000. -/
theorem claim_C7_witness :
    ∃ k : Kpis,
      run 1 1000 ⟨["월", "매출액", "전년동월", "증감률"],
        [["2024-02", "3", "2", "1"], ["2024-01", "10", "8", "25"]]⟩ = .page k ∧
      k.max_sales ∈ ([⟨"2024-01", 10, 8, 25, 10, 8, 10, 10⟩,
          ⟨"2024-02", 3, 2, 1, 3, 2, 13, 13⟩] : List CleanRow).map
          (fun r => r.«매출액») ∧
      (∀ x ∈ ([⟨"2024-01", 10, 8, 25, 10, 8, 10, 10⟩,
          ⟨"2024-02", 3, 2, 1, 3, 2, 13, 13⟩] : List CleanRow).map
          (fun r => r.«매출액»), x ≤ k.max_sales) ∧
      k.avg_sales = (([⟨"2024-01", 10, 8, 25, 10, 8, 10, 10⟩,
          ⟨"2024-02", 3, 2, 1, 3, 2, 13, 13⟩] : List CleanRow).map
          (fun r => r.«매출액»)).sum /
        (([⟨"2024-01", 10, 8, 25, 10, 8, 10, 10⟩,
          ⟨"2024-02", 3, 2, 1, 3, 2, 13, 13⟩] : List CleanRow).length : ℚ) ∧
      k.avg_rate = (([⟨"2024-01", 10, 8, 25, 10, 8, 10, 10⟩,
          ⟨"2024-02", 3, 2, 1, 3, 2, 13, 13⟩] : List CleanRow).map
          (fun r => r.«증감률»)).sum /
        (([⟨"2024-01", 10, 8, 25, 10, 8, 10, 10⟩,
          ⟨"2024-02", 3, 2, 1, 3, 2, 13, 13⟩] : List CleanRow).length : ℚ) ∧
      k.cum_last = (([⟨"2024-01", 10, 8, 25, 10, 8, 10, 10⟩,
          ⟨"2024-02", 3, 2, 1, 3, 2, 13, 13⟩] : List CleanRow).map
          (fun r => r.«매출액»)).sum ∧
      k.attain_rate =
        (if (1000 : ℚ) = 0 then 0
          else 100 * (([⟨"2024-01", 10, 8, 25, 10, 8, 10, 10⟩,
            ⟨"2024-02", 3, 2, 1, 3, 2, 13, 13⟩] : List CleanRow).map
            (fun r => r.«매출액»)).sum / 1000) :=
  claim_C7 1 1000 ⟨["월", "매출액", "전년동월", "증감률"],
      [["2024-02", "3", "2", "1"], ["2024-01", "10", "8", "25"]]⟩
    [⟨"2024-01", 10, 8, 25, 10, 8, 10, 10⟩,
      ⟨"2024-02", 3, 2, 1, 3, 2, 13, 13⟩]
    (by with_unfolding_all decide) (by decide)

/-- C8: the heatmap aggregates 매출액_단위 by the (year, month) key taken
from the 월 string (year = first four characters, month = characters six
and seven, app.py lines 273-274): the pivot cell of a key occurring in the
table is the sum of 매출액_단위 over all rows sharing that key, and the
month columns are listed in ascending order (app.py lines 275-277). -/
theorem claim_C8 (u : ℚ) (csv : Csv) (df : List CleanRow) (y m : String)
    (_h : load_data u csv = .ok df) (hk : (y, m) ∈ df.map rowKey) :
    pivotLookup (pivot_table df) (y, m) = some (groupSum df (y, m)) ∧
    List.Sorted strLE (monthCols df) := by
  constructor
  · have hany : df.any (fun r => decide (rowKey r = (y, m))) = true := by
      rw [List.any_eq_true]
      obtain ⟨r, hr, hre⟩ := List.mem_map.mp hk
      exact ⟨r, hr, by simp [hre]⟩
    unfold pivot_table
    rw [pivotLookup_foldl df [] (y, m)]
    simp [pivotLookup, hany]
  · exact List.sorted_insertionSort strLE _

/-- C8 witness: two rows of the same calendar month are combined by
summation; the single month column list is sorted. -/
theorem claim_C8_witness :
    pivotLookup (pivot_table [⟨"2024-01", 10, 1, 1, 10, 1, 10, 10⟩,
        ⟨"2024-01", 5, 1, 1, 5, 1, 15, 15⟩]) ("2024", "01") =
      some (groupSum [⟨"2024-01", 10, 1, 1, 10, 1, 10, 10⟩,
        ⟨"2024-01", 5, 1, 1, 5, 1, 15, 15⟩] ("2024", "01")) ∧
    List.Sorted strLE (monthCols [⟨"2024-01", 10, 1, 1, 10, 1, 10, 10⟩,
        ⟨"2024-01", 5, 1, 1, 5, 1, 15, 15⟩]) :=
  claim_C8 1 ⟨["월", "매출액", "전년동월", "증감률"],
      [["2024-01", "10", "1", "1"], ["2024-01", "5", "1", "1"]]⟩
    [⟨"2024-01", 10, 1, 1, 10, 1, 10, 10⟩, ⟨"2024-01", 5, 1, 1, 5, 1, 15, 15⟩]
    "2024" "01"
    (by with_unfolding_all decide) (by decide)

/-- C9: every row of a table returned by `load_data` is fully parsed: its
three numeric fields are successful parses of the cells of some input row
and its 월 field is that row's stripped 월 cell; rows that fail to parse
are dropped, so the row count equals the number of input rows whose three
numeric cells all parse (app.py lines 96-102). -/
theorem claim_C9 (u : ℚ) (csv : Csv) (df : List CleanRow)
    (h : load_data u csv = .ok df) :
    (∀ r ∈ df, ∃ row ∈ csv.rows,
        parseNum (cell csv.header row "매출액") = some r.«매출액» ∧
        parseNum (cell csv.header row "전년동월") = some r.«전년동월» ∧
        parseRate (cell csv.header row "증감률") = some r.«증감률» ∧
        strip (cell csv.header row "월") = r.«월») ∧
    df.length = csv.rows.countP (fun row => (parseRow csv.header row).isSome) := by
  have hdf := load_data_ok h
  subst hdf
  constructor
  · intro r hr
    obtain ⟨b, hb, e1, e2, e3, e4, _, _, _⟩ := mem_deriveRows u 0 _ r hr
    have hb2 : b ∈ csv.rows.filterMap (parseRow csv.header) :=
      (List.mem_insertionSort rowLE).mp hb
    obtain ⟨row, hrow, hpr⟩ := List.mem_filterMap.mp hb2
    obtain ⟨p1, p2, p3, p4⟩ := parseRow_some hpr
    refine ⟨row, hrow, ?_, ?_, ?_, ?_⟩
    · rw [e2]; exact p1
    · rw [e3]; exact p2
    · rw [e4]; exact p3
    · rw [e1]; exact p4
  · rw [deriveRows_length u 0 _, (List.perm_insertionSort rowLE _).length_eq]
    exact length_filterMap_eq_countP (parseRow csv.header) csv.rows

/-- C9 witness: a table with one fully parsed row and one dropped row. -/
theorem claim_C9_witness :
    (∀ r ∈ ([⟨"2024-01", 10, 8, 25, 10, 8, 10, 10⟩] : List CleanRow),
      ∃ row ∈ [["2024-01", "10", "8", "25"], ["2024-02", "oops", "90", "10"]],
        parseNum (cell ["월", "매출액", "전년동월", "증감률"] row "매출액") =
          some r.«매출액» ∧
        parseNum (cell ["월", "매출액", "전년동월", "증감률"] row "전년동월") =
          some r.«전년동월» ∧
        parseRate (cell ["월", "매출액", "전년동월", "증감률"] row "증감률") =
          some r.«증감률» ∧
        strip (cell ["월", "매출액", "전년동월", "증감률"] row "월") = r.«월») ∧
    ([⟨"2024-01", 10, 8, 25, 10, 8, 10, 10⟩] : List CleanRow).length =
      ([["2024-01", "10", "8", "25"], ["2024-02", "oops", "90", "10"]] :
        List (List String)).countP
        (fun row =>
          (parseRow ["월", "매출액", "전년동월", "증감률"] row).isSome) :=
  claim_C9 1 ⟨["월", "매출액", "전년동월", "증감률"],
      [["2024-01", "10", "8", "25"], ["2024-02", "oops", "90", "10"]]⟩
    [⟨"2024-01", 10, 8, 25, 10, 8, 10, 10⟩]
    (by with_unfolding_all decide)

end SalesApp
